import Mathlib

/-
Verification of the tusker backend core (src-tauri/src) against its
specification. The Rust source is shallowly embedded: pure string and
data manipulation is translated directly; the PostgreSQL server, the OS
keyring, the filesystem and the cryptographic primitives are modelled as
explicit state or as abstract operation records, and the functions that
drive them become state-passing Lean functions.
-/

namespace Tusker

/-- The single-quote character (ASCII 39). -/
def squoteChar : Char := Char.ofNat 39

/-- The single-quote character as a one-character string. -/
def squoteStr : String := String.mk [squoteChar]

/-- The backslash character (ASCII 92). -/
def bslashChar : Char := Char.ofNat 92

/-- The backslash character as a one-character string. -/
def bslashStr : String := String.mk [bslashChar]

/-- Wrap a string in single quotes, as the Rust source does with
format strings of the shape `'{}'`. -/
def sq (s : String) : String := squoteStr ++ s ++ squoteStr

/-- Replace every occurrence of the character `c` in `s` by the string `r`.
This is the single-character-pattern instance of Rust `str::replace`, the
only form the source uses. -/
def replaceChar (c : Char) (r : String) (s : String) : String :=
  String.mk (s.toList.flatMap (fun x => if x = c then r.toList else [x]))

/-- Character-wise uppercase, modelling Rust `str::to_uppercase` on the
ASCII keywords the source compares against. -/
def strUpper (s : String) : String := String.mk (s.toList.map Char.toUpper)

/-- Whitespace trim from both ends, modelling Rust `str::trim`. -/
def strTrim (s : String) : String :=
  String.mk (((s.toList.dropWhile Char.isWhitespace).reverse.dropWhile
    Char.isWhitespace).reverse)

/-- Does `s` start with `p`, modelling Rust `str::starts_with`. -/
def strStarts (s p : String) : Bool := p.toList.isPrefixOf s.toList

/-- `escape_like_pattern` from `db/data.rs`:
`s.replace('\\', "\\\\").replace('%', "\\%").replace('_', "\\_")`. -/
def escape_like_pattern (s : String) : String :=
  replaceChar '_' (bslashStr ++ "_")
    (replaceChar '%' (bslashStr ++ "%")
      (replaceChar bslashChar (bslashStr ++ bslashStr) s))

/-- `escape_sql_string` from `db/data.rs`: double every single quote. -/
def escape_sql_string (s : String) : String :=
  replaceChar squoteChar (squoteStr ++ squoteStr) s

/-- `quote_identifier` from `db/data.rs`: wrap in double quotes, doubling
any embedded double quote. -/
def quote_identifier (identifier : String) : String :=
  "\"" ++ replaceChar '"' "\"\"" identifier ++ "\""

/-- `FilterOperator` from `db/data.rs` (the `In` variant is named `inList`
here because `in` is a Lean keyword). -/
inductive FilterOperator where
  | equals
  | notEquals
  | greaterThan
  | lessThan
  | greaterThanOrEqual
  | lessThanOrEqual
  | contains
  | notContains
  | startsWith
  | endsWith
  | isNull
  | isNotNull
  | isTrue
  | isFalse
  | between
  | inList
deriving DecidableEq

/-- `FilterCondition` from `db/data.rs`. -/
structure FilterCondition where
  column : String
  operator : FilterOperator
  value : Option String
  value2 : Option String
  values : Option (List String)
deriving DecidableEq

/-- The body of the `filter_map` closure inside `build_where_clause`:
render one filter condition to a SQL predicate, or `none` when a required
field is missing (or an `IN` list is empty). -/
def renderCondition (f : FilterCondition) : Option String :=
  let col := quote_identifier f.column
  match f.operator with
  | .equals => f.value.map (fun v => col ++ " = " ++ sq (escape_sql_string v))
  | .notEquals => f.value.map (fun v => col ++ " != " ++ sq (escape_sql_string v))
  | .greaterThan => f.value.map (fun v => col ++ " > " ++ sq (escape_sql_string v))
  | .lessThan => f.value.map (fun v => col ++ " < " ++ sq (escape_sql_string v))
  | .greaterThanOrEqual => f.value.map (fun v => col ++ " >= " ++ sq (escape_sql_string v))
  | .lessThanOrEqual => f.value.map (fun v => col ++ " <= " ++ sq (escape_sql_string v))
  | .contains => f.value.map (fun v =>
      col ++ "::text ILIKE " ++ sq (escape_sql_string ("%" ++ escape_like_pattern v ++ "%"))
        ++ " ESCAPE " ++ sq bslashStr)
  | .notContains => f.value.map (fun v =>
      col ++ "::text NOT ILIKE " ++ sq (escape_sql_string ("%" ++ escape_like_pattern v ++ "%"))
        ++ " ESCAPE " ++ sq bslashStr)
  | .startsWith => f.value.map (fun v =>
      col ++ "::text ILIKE " ++ sq (escape_sql_string (escape_like_pattern v ++ "%"))
        ++ " ESCAPE " ++ sq bslashStr)
  | .endsWith => f.value.map (fun v =>
      col ++ "::text ILIKE " ++ sq (escape_sql_string ("%" ++ escape_like_pattern v))
        ++ " ESCAPE " ++ sq bslashStr)
  | .isNull => some (col ++ " IS NULL")
  | .isNotNull => some (col ++ " IS NOT NULL")
  | .isTrue => some (col ++ " = TRUE")
  | .isFalse => some (col ++ " = FALSE")
  | .between =>
      match f.value, f.value2 with
      | some v1, some v2 =>
          some (col ++ " BETWEEN " ++ sq (escape_sql_string v1) ++ " AND "
            ++ sq (escape_sql_string v2))
      | _, _ => none
  | .inList =>
      match f.values with
      | none => none
      | some vals =>
          if vals.isEmpty then none
          else some (col ++ " IN (" ++
            String.intercalate ", " (vals.map (fun v => sq (escape_sql_string v))) ++ ")")

/-- `build_where_clause` from `db/data.rs`. -/
def build_where_clause (filters : List FilterCondition) : String :=
  let conditions := filters.filterMap renderCondition
  if conditions.isEmpty then "" else "WHERE " ++ String.intercalate " AND " conditions

/-- JSON values, modelling `serde_json::Value` as far as the claims need. -/
inductive Json where
  | null
  | bool (b : Bool)
  | num (n : Int)
  | str (s : String)
  | arr (xs : List Json)
  | obj (fields : List (String × Json))

/-- One decoded cell of a PostgreSQL result row: column name, column type
name, and the JSON value `pg_value_to_json` produced for it. The typed
sqlx decoding itself is outside the embedding; a `PgRow` carries its
already-decoded cells in column order. -/
structure PgCell where
  name : String
  typeName : String
  value : Json

/-- A PostgreSQL result row as the ordered list of its cells. -/
abbrev PgRow := List PgCell

/-- `ColumnMeta` from `db/data.rs`. -/
structure ColumnMeta where
  name : String
  data_type : String
deriving DecidableEq

/-- `rows_to_json` from `db/data.rs`: empty input yields empty rows and
empty column metadata; otherwise column metadata comes from the first row
only, and each row becomes an ordered name-to-value mapping. -/
def rows_to_json (rows : List PgRow) :
    List (List (String × Json)) × List ColumnMeta :=
  match rows with
  | [] => ([], [])
  | r0 :: _ =>
      let columns := r0.map (fun c => ColumnMeta.mk c.name c.typeName)
      let jsonRows := rows.map (fun row => row.map (fun c => (c.name, c.value)))
      (jsonRows, columns)

/-- Abstract model of the live PostgreSQL session the data operations
drive: `runCount` answers a `SELECT COUNT(*)` query, `runQuery` answers a
row-returning query (`fetch_all`), `runExec` answers a mutation
(`execute`, returning rows affected). -/
structure PgEngine where
  runCount : String → Int
  runQuery : String → List PgRow
  runExec : String → Nat

/-- `PaginatedResult` from `db/data.rs`. -/
structure PaginatedResult where
  rows : List (List (String × Json))
  total_count : Int
  page : Int
  page_size : Int
  total_pages : Int
  columns : List ColumnMeta

/-- Ceiling of the integer division `a / b` (for `b > 0`); models the
source's `(total_count as f64 / page_size as f64).ceil() as i64`, exact
for the i64 ranges representable in f64. -/
def ceilDivInt (a b : Int) : Int := -((-a).fdiv b)

/-- The ORDER BY clause built inside `fetch_paginated`. -/
def fetchOrderClause (order_by order_direction : Option (List String)) : String :=
  match order_by with
  | some columns =>
      if columns.isEmpty then ""
      else
        let directions := order_direction.getD []
        let parts := columns.enum.map (fun p =>
          let dir :=
            match directions.get? p.1 with
            | some d => if strUpper d = "DESC" then "DESC" else "ASC"
            | none => "ASC"
          quote_identifier p.2 ++ " " ++ dir)
        "ORDER BY " ++ String.intercalate ", " parts
  | none => ""

/-- The WHERE clause used by `fetch_paginated`: absent or empty filter
lists contribute nothing. -/
def fetchWhereClause (filters : Option (List FilterCondition)) : String :=
  match filters with
  | some f => if f.isEmpty then "" else build_where_clause f
  | none => ""

/-- The COUNT query string `fetch_paginated` issues. -/
def fetchCountQuery (schema table : String)
    (filters : Option (List FilterCondition)) : String :=
  "SELECT COUNT(*) FROM " ++ quote_identifier schema ++ "." ++ quote_identifier table
    ++ " " ++ fetchWhereClause filters

/-- The data query string `fetch_paginated` issues. -/
def fetchDataQuery (schema table : String) (page : Int) (page_size : Option Int)
    (order_by order_direction : Option (List String))
    (filters : Option (List FilterCondition)) : String :=
  let pageSize := page_size.getD 50
  let offset := (page - 1) * pageSize
  "SELECT * FROM " ++ quote_identifier schema ++ "." ++ quote_identifier table
    ++ " " ++ fetchWhereClause filters ++ " " ++ fetchOrderClause order_by order_direction
    ++ " LIMIT " ++ toString pageSize ++ " OFFSET " ++ toString offset

/-- `DataOperations::fetch_paginated` from `db/data.rs`, with the two
queries answered by the abstract engine. -/
def fetch_paginated (E : PgEngine) (schema table : String) (page : Int)
    (page_size : Option Int) (order_by order_direction : Option (List String))
    (filters : Option (List FilterCondition)) : PaginatedResult :=
  let pageSize := page_size.getD 50
  let total_count := E.runCount (fetchCountQuery schema table filters)
  let rows := E.runQuery
    (fetchDataQuery schema table page page_size order_by order_direction filters)
  let rj := rows_to_json rows
  { rows := rj.1
    total_count := total_count
    page := page
    page_size := pageSize
    total_pages := ceilDivInt total_count pageSize
    columns := rj.2 }

/-- `QueryResult` from `db/data.rs` (the wall-clock `execution_time_ms`
field is not modelled). -/
structure QueryResult where
  rows : List (List (String × Json))
  columns : List ColumnMeta
  rows_affected : Nat

/-- The SELECT-detection predicate inside `execute_raw_query`. -/
def isSelectSql (sql_upper : String) : Bool :=
  strStarts sql_upper "SELECT" || strStarts sql_upper "WITH"
    || strStarts sql_upper "EXPLAIN" || strStarts sql_upper "SHOW"

/-- `DataOperations::execute_raw_query` from `db/data.rs`. -/
def execute_raw_query (E : PgEngine) (sql : String) : Except String QueryResult :=
  let sql_trimmed := strTrim sql
  if sql_trimmed = "" then .error "Empty query"
  else if isSelectSql (strUpper sql_trimmed) then
    let rows := E.runQuery sql_trimmed
    let rj := rows_to_json rows
    .ok { rows := rj.1, columns := rj.2, rows_affected := 0 }
  else
    .ok { rows := [], columns := [], rows_affected := E.runExec sql_trimmed }

/-- `StatementError` from `db/data.rs`. -/
structure StatementError where
  code : Option String
  message : String
  detail : Option String
  hint : Option String
deriving DecidableEq

/-- `StatementResult` from `db/data.rs` (the wall-clock `duration_ms`
field is not modelled). -/
structure StatementResult where
  sql : String
  ok : Bool
  rows_affected : Option Nat
  error : Option StatementError
deriving DecidableEq

/-- `MigrationResult` from `db/data.rs` (without `duration_ms`). -/
structure MigrationResult where
  ok : Bool
  dry_run : Bool
  committed : Bool
  statements : List StatementResult
  lock_timeout_ms : Nat
  statement_timeout_ms : Nat
deriving DecidableEq

/-- Abstract model of the transaction the migration executor drives.
`σ` is the database state visible inside the open transaction. `exec`
returns the post-execution state together with either the rows-affected
count or the statement's error (on error the returned state is whatever
the aborted transaction leaves behind). `commitCheck` gives the error
when COMMIT itself fails on the given state. -/
structure PgTx (σ : Type) where
  exec : σ → String → σ × Except StatementError Nat
  commitCheck : σ → Option StatementError

/-- Transaction-local state: the database state plus the stack of
declared savepoints, most recent first, each carrying the snapshot taken
at declaration time. -/
structure TxState (σ : Type) where
  db : σ
  savepoints : List (String × σ)

/-- A freshly begun transaction has no savepoints. -/
def TxState.init {σ : Type} (s : σ) : TxState σ := ⟨s, []⟩

/-- Effect of the SQL `SAVEPOINT name` statement on the model. -/
def declareSavepoint {σ : Type} (name : String) (ts : TxState σ) : TxState σ :=
  ⟨ts.db, (name, ts.db) :: ts.savepoints⟩

/-- Find the most recently declared savepoint called `name`, returning its
snapshot and the savepoint stack with the later entries discarded. -/
def findSavepoint {σ : Type} (name : String) :
    List (String × σ) → Option (σ × List (String × σ))
  | [] => none
  | (n, s) :: rest =>
      if n = name then some (s, (n, s) :: rest) else findSavepoint name rest

/-- Effect of the SQL `ROLLBACK TO SAVEPOINT name` statement: restore the
snapshot, keep the savepoint itself, discard savepoints declared after
it. A missing savepoint leaves the state unchanged (the executor only
rolls back to names it has just declared). -/
def rollbackToSavepoint {σ : Type} (name : String) (ts : TxState σ) : TxState σ :=
  match findSavepoint name ts.savepoints with
  | some (s, sps) => ⟨s, sps⟩
  | none => ts

/-- The four session-local setup statements `execute_migration` issues
after BEGIN. -/
def setupSqls (lockTimeout stmtTimeout : Nat) : List String :=
  ["SET LOCAL lock_timeout = " ++ sq (toString lockTimeout ++ "ms"),
   "SET LOCAL statement_timeout = " ++ sq (toString stmtTimeout ++ "ms"),
   "SET LOCAL idle_in_transaction_session_timeout = " ++ sq "60s",
   "SET LOCAL application_name = " ++ sq "tusker-migration"]

/-- The setup loop of `execute_migration`: run each setup statement in
order; on the first failure return the `StatementResult` the source
builds for it. -/
def runSetup {σ : Type} (T : PgTx σ) : σ → List String → Except StatementResult σ
  | s, [] => .ok s
  | s, sql :: rest =>
      match T.exec s sql with
      | (s1, .ok _) => runSetup T s1 rest
      | (_, .error e) =>
          .error { sql := sql, ok := false, rows_affected := none, error := some e }

/-- Outcome of the main statement loop of `execute_migration`. -/
structure LoopOut (σ : Type) where
  ts : TxState σ
  results : List StatementResult
  allOk : Bool
  aborted : Bool

/-- The main statement loop of `execute_migration`, over the enumerated
statement list (the index feeds the savepoint name `s{i}`). Empty
statements after trimming are skipped. In dry-run mode each statement
runs inside a savepoint that is rolled back to only on error; in apply
mode the first error aborts the loop (`aborted = true`). -/
def migrationLoop {σ : Type} (T : PgTx σ) (dryRun : Bool) :
    TxState σ → List (Nat × String) → LoopOut σ
  | ts, [] => ⟨ts, [], true, false⟩
  | ts, (i, stmt) :: rest =>
      let trimmed := strTrim stmt
      if trimmed = "" then migrationLoop T dryRun ts rest
      else if dryRun then
        let spName := "s" ++ toString i
        let ts1 := declareSavepoint spName ts
        match T.exec ts1.db trimmed with
        | (s1, .ok n) =>
            let r : StatementResult :=
              { sql := trimmed, ok := true, rows_affected := some n, error := none }
            let out := migrationLoop T dryRun ⟨s1, ts1.savepoints⟩ rest
            ⟨out.ts, r :: out.results, out.allOk, out.aborted⟩
        | (s1, .error e) =>
            let r : StatementResult :=
              { sql := trimmed, ok := false, rows_affected := none, error := some e }
            let ts2 := rollbackToSavepoint spName ⟨s1, ts1.savepoints⟩
            let out := migrationLoop T dryRun ts2 rest
            ⟨out.ts, r :: out.results, false, out.aborted⟩
      else
        match T.exec ts.db trimmed with
        | (s1, .ok n) =>
            let r : StatementResult :=
              { sql := trimmed, ok := true, rows_affected := some n, error := none }
            let out := migrationLoop T dryRun ⟨s1, ts.savepoints⟩ rest
            ⟨out.ts, r :: out.results, out.allOk, out.aborted⟩
        | (_, .error e) =>
            let r : StatementResult :=
              { sql := trimmed, ok := false, rows_affected := none, error := some e }
            ⟨ts, [r], false, true⟩

/-- `MigrationOperations::execute_migration` from `db/data.rs`. The
second component of the result is the database state visible to other
sessions after the call: the initial state unless a COMMIT succeeded
(dropping or rolling back the transaction undoes its effects). -/
def execute_migration {σ : Type} (T : PgTx σ) (s0 : σ) (statements : List String)
    (dry_run : Bool) (lock_timeout_ms statement_timeout_ms : Option Nat) :
    MigrationResult × σ :=
  let lockTimeout := lock_timeout_ms.getD 5000
  let stmtTimeout := statement_timeout_ms.getD 30000
  match runSetup T s0 (setupSqls lockTimeout stmtTimeout) with
  | .error r =>
      ({ ok := false, dry_run := dry_run, committed := false, statements := [r],
         lock_timeout_ms := lockTimeout, statement_timeout_ms := stmtTimeout }, s0)
  | .ok s1 =>
      let out := migrationLoop T dry_run (TxState.init s1) statements.enum
      if out.aborted then
        ({ ok := false, dry_run := dry_run, committed := false,
           statements := out.results, lock_timeout_ms := lockTimeout,
           statement_timeout_ms := stmtTimeout }, s0)
      else if dry_run then
        ({ ok := out.allOk, dry_run := dry_run, committed := false,
           statements := out.results, lock_timeout_ms := lockTimeout,
           statement_timeout_ms := stmtTimeout }, s0)
      else
        match T.commitCheck out.ts.db with
        | none =>
            ({ ok := out.allOk, dry_run := dry_run, committed := true,
               statements := out.results, lock_timeout_ms := lockTimeout,
               statement_timeout_ms := stmtTimeout }, out.ts.db)
        | some e =>
            ({ ok := false, dry_run := dry_run, committed := false,
               statements := out.results ++
                 [{ sql := "COMMIT", ok := false, rows_affected := none,
                    error := some e }],
               lock_timeout_ms := lockTimeout,
               statement_timeout_ms := stmtTimeout }, s0)

/-- The input statements after trimming, with the ones that trim to the
empty string removed. -/
def nonEmptyTrimmed (statements : List String) : List String :=
  (statements.map strTrim).filter (fun s => s ≠ "")

/-- Claim-side description of the apply-mode statement loop: execute the
given (already trimmed, non-empty) statements sequentially from the given
state; on the first error stop with that statement's failure recorded
last; the final flag is true exactly when every statement succeeded. -/
def applySpecLoop {σ : Type} (T : PgTx σ) :
    σ → List String → σ × List StatementResult × Bool
  | s, [] => (s, [], true)
  | s, stmt :: rest =>
      match T.exec s stmt with
      | (s1, .ok n) =>
          let out := applySpecLoop T s1 rest
          (out.1, { sql := stmt, ok := true, rows_affected := some n,
                    error := none } :: out.2.1, out.2.2)
      | (_, .error e) =>
          (s, [{ sql := stmt, ok := false, rows_affected := none,
                 error := some e }], false)

/-- Claim-side description of apply mode (`dry_run = false`), written
from the claim's wording: run the non-empty trimmed statements in input
order from the post-setup state `s1`; on the first error return
`ok = false, committed = false` with the failing statement last and
nothing further executed; if all succeed attempt COMMIT, turning a COMMIT
failure into a synthetic `COMMIT` entry with `ok = false,
committed = false`, and otherwise `ok = true, committed = true`. -/
def applySpec {σ : Type} (T : PgTx σ) (s0 s1 : σ) (statements : List String)
    (lt st : Nat) : MigrationResult × σ :=
  let out := applySpecLoop T s1 (nonEmptyTrimmed statements)
  if out.2.2 then
    match T.commitCheck out.1 with
    | none =>
        ({ ok := true, dry_run := false, committed := true, statements := out.2.1,
           lock_timeout_ms := lt, statement_timeout_ms := st }, out.1)
    | some e =>
        ({ ok := false, dry_run := false, committed := false,
           statements := out.2.1 ++
             [{ sql := "COMMIT", ok := false, rows_affected := none,
                error := some e }],
           lock_timeout_ms := lt, statement_timeout_ms := st }, s0)
  else
    ({ ok := false, dry_run := false, committed := false, statements := out.2.1,
       lock_timeout_ms := lt, statement_timeout_ms := st }, s0)

/-- Claim-side description of the dry-run statement loop: one result per
statement, in order; the state advances only across successful
statements (an error is rolled back to the statement's savepoint, a
success is not released, so later statements observe earlier successful
effects). -/
def drySpecLoop {σ : Type} (T : PgTx σ) : σ → List String → List StatementResult
  | _, [] => []
  | s, stmt :: rest =>
      match T.exec s stmt with
      | (s1, .ok n) =>
          { sql := stmt, ok := true, rows_affected := some n, error := none }
            :: drySpecLoop T s1 rest
      | (_, .error e) =>
          { sql := stmt, ok := false, rows_affected := none, error := some e }
            :: drySpecLoop T s rest

/-- Claim-side description of dry-run mode (`dry_run = true`): exactly
one `StatementResult` per non-empty trimmed statement in input order,
`committed = false`, `ok` the conjunction of the per-statement flags, and
the whole transaction rolled back (the visible state is `s0` again). -/
def drySpec {σ : Type} (T : PgTx σ) (s0 s1 : σ) (statements : List String)
    (lt st : Nat) : MigrationResult × σ :=
  let rs := drySpecLoop T s1 (nonEmptyTrimmed statements)
  ({ ok := rs.all (fun r => r.ok), dry_run := true, committed := false,
     statements := rs, lock_timeout_ms := lt, statement_timeout_ms := st }, s0)

/-- `ExportedProject` from `db/export.rs`. -/
structure ExportedProject where
  name : String
  color : String
  host : String
  port : Nat
  database : String
  username : String
  password : String
  ssl : Bool
  instant_commit : Bool
  read_only : Bool
  last_connected : Option String
  created_at : String
deriving DecidableEq

/-- `ExportPayload` from `db/export.rs`. -/
structure ExportPayload where
  version : Nat
  exported_at : String
  projects : List ExportedProject
deriving DecidableEq

/-- Abstract model of the cryptographic primitives `db/export.rs` uses:
Argon2id key derivation and AES-256-GCM authenticated encryption. Byte
strings are lists of naturals. Their defining properties (AEAD round
trip, decryption failure) appear as hypotheses of the theorems. -/
structure ExportCrypto where
  deriveKey : String → List Nat → List Nat
  encrypt : List Nat → List Nat → List Nat → List Nat
  decrypt : List Nat → List Nat → List Nat → Option (List Nat)

/-- The magic bytes `b"TUSK"`. -/
def MAGIC : List Nat := [84, 85, 83, 75]

/-- The export file body `encrypt_and_write` builds:
`MAGIC ++ VERSION ++ SALT ++ NONCE ++ CIPHERTEXT`, with the payload
`{version := 1, exported_at := now, projects}` serialized by `ser`
(modelling `serde_json::to_vec`) and the random salt and nonce passed in
explicitly (modelling `thread_rng().fill_bytes`). -/
def encryptToBytes (C : ExportCrypto) (ser : ExportPayload → List Nat)
    (projects : List ExportedProject) (password now : String)
    (salt nonce : List Nat) : List Nat :=
  let payload : ExportPayload := { version := 1, exported_at := now, projects := projects }
  let json := ser payload
  let key := C.deriveKey password salt
  let ciphertext := C.encrypt key nonce json
  MAGIC ++ [1] ++ salt ++ nonce ++ ciphertext

/-- A model of the filesystem the export codec reads and writes. -/
def ExportFs : Type := String → Option (List Nat)

/-- Write a file (`std::fs::write`). -/
def writeFile (fs : ExportFs) (path : String) (data : List Nat) : ExportFs :=
  fun p => if p = path then some data else fs p

/-- `encrypt_and_write` from `db/export.rs`, returning the updated
filesystem. -/
def encrypt_and_write (C : ExportCrypto) (ser : ExportPayload → List Nat)
    (fs : ExportFs) (projects : List ExportedProject)
    (password file_path now : String) (salt nonce : List Nat) : ExportFs :=
  writeFile fs file_path (encryptToBytes C ser projects password now salt nonce)

/-- The parsing and decryption part of `read_and_decrypt`, applied to the
bytes read from the file. `deser` models `serde_json::from_slice`. -/
def decryptFromBytes (C : ExportCrypto) (deser : List Nat → Option ExportPayload)
    (data : List Nat) (password : String) : Except String ExportPayload :=
  if data.length < 49 then .error "Invalid file: too short"
  else if data.take 4 ≠ MAGIC then .error "Not a valid Tusker export file"
  else if data.getD 4 0 ≠ 1 then
    .error ("Unsupported file version: " ++ toString (data.getD 4 0))
  else
    match C.decrypt (C.deriveKey password ((data.drop 5).take 32))
        ((data.drop 37).take 12) (data.drop 49) with
    | none => .error "Incorrect password or corrupted file"
    | some plaintext =>
        match deser plaintext with
        | none => .error "JSON parse error"
        | some payload => .ok payload

/-- `read_and_decrypt` from `db/export.rs`. -/
def read_and_decrypt (C : ExportCrypto) (deser : List Nat → Option ExportPayload)
    (fs : ExportFs) (file_path password : String) : Except String ExportPayload :=
  match fs file_path with
  | none => .error "Failed to read file"
  | some data => decryptFromBytes C deser data password

/-- `Commit` from `db/commit_store.rs`. -/
structure Commit where
  id : String
  parent_id : Option String
  message : String
  summary : String
  created_at : String
  change_count : Int
deriving DecidableEq

/-- `CommitChange` from `db/commit_store.rs` (`type` is `change_type`). -/
structure CommitChange where
  id : Int
  commit_id : String
  change_type : String
  schema_name : String
  table_name : String
  data : String
  original_data : Option String
  sql : String
  sort_order : Int
deriving DecidableEq

/-- `SaveCommitChange` from `db/commit_store.rs`. -/
structure SaveCommitChange where
  change_type : String
  schema_name : String
  table_name : String
  data : String
  original_data : Option String
  sql : String
deriving DecidableEq

/-- `SaveCommitRequest` from `db/commit_store.rs` (`project_id` selects
the per-project database file and is not otherwise used). -/
structure SaveCommitRequest where
  project_id : String
  message : String
  summary : String
  changes : List SaveCommitChange
deriving DecidableEq

/-- The per-project commit database: the two sqlite tables in insertion
order, plus the autoincrement counter backing `commit_changes.id`. -/
structure CommitDb where
  commits : List Commit
  changes : List CommitChange
  nextChangeId : Int
deriving DecidableEq

/-- The empty (freshly created) commit database. -/
def CommitDb.empty : CommitDb := ⟨[], [], 1⟩

/-- The codepoints of a string, modelling the byte string Rust feeds to
the hasher (identical to UTF-8 bytes on ASCII input). -/
def strBytes (s : String) : List Nat := s.toList.map Char.toNat

/-- One lowercase hexadecimal digit. -/
def hexDigit (n : Nat) : Char :=
  if n < 10 then Char.ofNat (48 + n) else Char.ofNat (87 + n)

/-- Lowercase hexadecimal encoding of a byte string (`hex::encode`). -/
def hexEncodeBytes (bs : List Nat) : String :=
  String.mk (bs.flatMap (fun b => [hexDigit (b / 16 % 16), hexDigit (b % 16)]))

/-- `CommitStore::generate_hash` from `db/commit_store.rs`: SHA-256 over
the parent id (or the literal `"root"`), then the timestamp, then each
change's SQL in order, hex-encoded. Feeding the hasher incrementally is
the same as hashing the concatenation, so the model hashes the
concatenated bytes with the abstract `sha256`. -/
def generate_hash (sha256 : List Nat → List Nat) (parent_id : Option String)
    (timestamp : String) (sql_statements : List String) : String :=
  hexEncodeBytes (sha256 (strBytes (parent_id.getD "root") ++ strBytes timestamp
    ++ (sql_statements.map strBytes).flatten))

/-- One step of selecting the commit with the greatest `created_at`
(keeping the earlier one on ties). -/
def latestFold (acc : Option Commit) (c : Commit) : Option Commit :=
  match acc with
  | none => some c
  | some b => if b.created_at < c.created_at then some c else some b

/-- `CommitStore::get_latest_commit_id`: the id of the commit with the
greatest `created_at` (`ORDER BY created_at DESC LIMIT 1`); on ties the
earliest inserted is kept. -/
def get_latest_commit_id (db : CommitDb) : Option String :=
  (db.commits.foldl latestFold none).map (fun c => c.id)

/-- `CommitStore::save_commit` from `db/commit_store.rs`, with the
timestamp `chrono::Utc::now().to_rfc3339()` passed in as `now` and
SHA-256 abstract. Returns the commit together with the updated
database. -/
def save_commit (sha256 : List Nat → List Nat) (db : CommitDb)
    (request : SaveCommitRequest) (now : String) : Commit × CommitDb :=
  let parent_id := get_latest_commit_id db
  let sql_statements := request.changes.map (fun c => c.sql)
  let hash := generate_hash sha256 parent_id now sql_statements
  let commit : Commit :=
    { id := hash, parent_id := parent_id, message := request.message,
      summary := request.summary, created_at := now,
      change_count := Int.ofNat request.changes.length }
  let newChanges := request.changes.enum.map (fun p =>
    ({ id := db.nextChangeId + Int.ofNat p.1, commit_id := hash,
       change_type := p.2.change_type, schema_name := p.2.schema_name,
       table_name := p.2.table_name, data := p.2.data,
       original_data := p.2.original_data, sql := p.2.sql,
       sort_order := Int.ofNat p.1 } : CommitChange))
  (commit,
   { commits := db.commits ++ [commit],
     changes := db.changes ++ newChanges,
     nextChangeId := db.nextChangeId + Int.ofNat request.changes.length })

/-- `SslMode` from `db/connection.rs`. -/
inductive SslMode where
  | disable
  | prefer
  | require
deriving DecidableEq

/-- `ConnectionConfig` from `db/connection.rs`. The `password` field is
marked `skip_serializing`, so a config stored in the keyring loses it. -/
structure ConnectionConfig where
  id : String
  name : String
  host : String
  port : Nat
  database : String
  username : String
  password : Option String
  ssl_mode : SslMode
  max_connections : Nat
deriving DecidableEq

/-- The OS keyring as `CredentialStorage` uses it: one entry per
connection id holding the raw password, and the shared `connections`
entry holding the serialized config list (`none` models
`keyring::Error::NoEntry`). -/
structure Keyring where
  passwords : String → Option String
  connectionsEntry : Option (List ConnectionConfig)

/-- What serializing a config stores: `password` is skipped. -/
def stripPassword (c : ConnectionConfig) : ConnectionConfig :=
  { c with password := none }

/-- `CredentialStorage::get_all_connection_configs`: a missing shared
entry reads as the empty list. -/
def get_all_connection_configs (k : Keyring) : List ConnectionConfig :=
  match k.connectionsEntry with
  | none => []
  | some cs => cs

/-- `CredentialStorage::save_connection_config`: drop any stored config
with the same id, append the new one, store the serialized list (which
strips passwords). -/
def save_connection_config (k : Keyring) (config : ConnectionConfig) : Keyring :=
  let configs := (get_all_connection_configs k).filter (fun c => c.id ≠ config.id)
  let configs := configs ++ [config]
  { k with connectionsEntry := some (configs.map stripPassword) }

/-- `CredentialStorage::save_password`: set the per-id keyring entry. -/
def save_password (k : Keyring) (connection_id password : String) : Keyring :=
  { k with passwords := fun x => if x = connection_id then some password
      else k.passwords x }

/-- `CredentialStorage::get_password`. -/
def get_password (k : Keyring) (connection_id : String) : Option String :=
  k.passwords connection_id

/-- The `save_connection` command from `commands.rs`: save the config,
then save the password under the config's id. -/
def save_connection (k : Keyring) (config : ConnectionConfig)
    (password : String) : Keyring :=
  save_password (save_connection_config k config) config.id password

/-- `AuthStatus` from `db/discovery.rs`. -/
inductive AuthStatus where
  | trust
  | passwordRequired
deriving DecidableEq

/-- `DiscoveredDatabase` from `db/discovery.rs`. -/
structure DiscoveredDatabase where
  host : String
  port : Nat
  database_name : String
  username : String
  auth_status : AuthStatus
  already_imported : Bool
deriving DecidableEq

/-- The comparator `discover_local_databases` sorts by:
`(port, database_name)` ascending. -/
def discoverOrder (a b : DiscoveredDatabase) : Prop :=
  a.port < b.port ∨ (a.port = b.port ∧ a.database_name ≤ b.database_name)

instance : DecidableRel discoverOrder := fun a b => by
  unfold discoverOrder
  infer_instance

instance : IsTotal DiscoveredDatabase discoverOrder :=
  ⟨fun a b => by
    unfold discoverOrder
    rcases lt_trichotomy a.port b.port with h | h | h
    · exact Or.inl (Or.inl h)
    · rcases le_total a.database_name b.database_name with h2 | h2
      · exact Or.inl (Or.inr ⟨h, h2⟩)
      · exact Or.inr (Or.inr ⟨h.symm, h2⟩)
    · exact Or.inr (Or.inl h)⟩

instance : IsTrans DiscoveredDatabase discoverOrder :=
  ⟨fun a b c hab hbc => by
    unfold discoverOrder at hab hbc ⊢
    rcases hab with h1 | ⟨h1, h1b⟩
    · rcases hbc with h2 | ⟨h2, _⟩
      · exact Or.inl (lt_trans h1 h2)
      · exact Or.inl (h2 ▸ h1)
    · rcases hbc with h2 | ⟨h2, h2b⟩
      · exact Or.inl (h1 ▸ h2)
      · exact Or.inr ⟨h1.trans h2, le_trans h1b h2b⟩⟩

/-- The sentinel database name `probe_server` returns when a server
cannot be reached at all. -/
def unreachableSentinel : String := "__unreachable__"

/-- `discover_local_databases` from `db/discovery.rs`, with the set of
discovered ports and the per-server probe results passed in (modelling
`scan_socket_dirs`, `probe_tcp_ports` and `probe_server`), and the
current username passed in (modelling `get_current_username`). Servers
whose probe yields exactly `["__unreachable__"]` contribute nothing;
every emitted entry is marked `already_imported` from the existing
`(host, port, database)` tuples; the result is sorted by
`(port, database_name)`. -/
def discover_local_databases (username : String) (ports : List Nat)
    (probe : Nat → AuthStatus × List String)
    (existing : List (String × Nat × String)) : List DiscoveredDatabase :=
  let results := ports.flatMap (fun port =>
    let pr := probe port
    if pr.2 = [unreachableSentinel] then []
    else pr.2.map (fun dbName =>
      { host := "localhost", port := port, database_name := dbName,
        username := username, auth_status := pr.1,
        already_imported := existing.any (fun e =>
          (e.1 == "localhost" || e.1 == "127.0.0.1") && e.2.1 == port
            && e.2.2 == dbName) }))
  List.insertionSort discoverOrder results

/-- Semantics of a PostgreSQL `LIKE` pattern with `ESCAPE '\'`, modelled
from the spec's operator contract: `%` matches any sequence, `_` matches
one character, a backslash makes the following pattern character literal.
`ILIKE` additionally case-folds letters; the patterns examined here
contain none, so the distinction is immaterial. -/
def likeMatch : List Char → List Char → Bool
  | [], [] => true
  | [], _ :: _ => false
  | c :: ps, [] => if c = '%' then likeMatch ps [] else false
  | c :: ps, x :: t =>
      if c = bslashChar then
        match ps with
        | [] => false
        | p :: ps2 => (p == x) && likeMatch ps2 t
      else if c = '%' then
        likeMatch ps (x :: t) || likeMatch (c :: ps) t
      else if c = '_' then
        likeMatch ps t
      else
        (c == x) && likeMatch ps t
termination_by p t => (p.length, t.length)

/-- The claim's description of the rendered LIKE payload for one input
character: backslash, percent and underscore are preceded by a
backslash, and a single quote is doubled. -/
def claimEscapedChar (c : Char) : List Char :=
  if c = bslashChar ∨ c = '%' ∨ c = '_' then [bslashChar, c]
  else if c = squoteChar then [squoteChar, squoteChar]
  else [c]

/-- The claim's description of the full escaping applied to a `contains`
value before it is spliced between `'%` and `%'`. -/
def claimEscape (v : String) : String :=
  String.mk (v.toList.flatMap claimEscapedChar)

theorem rows_to_json_fst_length (rows : List PgRow) :
    (rows_to_json rows).1.length = rows.length := by
  cases rows <;> simp [rows_to_json]

theorem countP_strip_filter_ne (xs : List ConnectionConfig) (i : String) :
    (((xs.filter (fun c => c.id ≠ i)).map stripPassword).countP
      (fun e => e.id == i)) = 0 := by
  rw [List.countP_eq_zero]
  intro e he
  obtain ⟨a, ha, rfl⟩ := List.mem_map.mp he
  have h2 := (List.mem_filter.mp ha).2
  simp only [stripPassword, decide_eq_true_eq] at h2 ⊢
  simp [h2]

/-- C8: after `save_connection(c, p)`, the stored config index contains
exactly one entry whose id equals `c.id` — saving with an existing id
replaces that entry rather than duplicating it — and `get_password(c.id)`
returns `p`. -/
theorem save_connection_exactly_one_and_password (k : Keyring)
    (c : ConnectionConfig) (p : String) :
    ((get_all_connection_configs (save_connection k c p)).countP
        (fun e => e.id == c.id)) = 1
      ∧ get_password (save_connection k c p) c.id = some p := by
  constructor
  · simp only [save_connection, save_password, save_connection_config,
      get_all_connection_configs, List.map_append, List.countP_append,
      countP_strip_filter_ne]
    simp [stripPassword]
  · simp [save_connection, save_password, save_connection_config, get_password]

/-- C4: `read_and_decrypt` classifies failures in order: a file shorter
than 49 bytes fails with "Invalid file: too short"; then a bad magic
fails with "Not a valid Tusker export file"; then a version byte other
than 1 fails with the unsupported-version error; and every AEAD
decryption failure — wrong password and tampering alike — reports
exactly "Incorrect password or corrupted file". -/
theorem read_and_decrypt_error_taxonomy (C : ExportCrypto)
    (deser : List Nat → Option ExportPayload) (fs : ExportFs)
    (file_path password : String) (data : List Nat)
    (hread : fs file_path = some data) :
    (data.length < 49 →
      read_and_decrypt C deser fs file_path password
        = .error "Invalid file: too short")
    ∧ (49 ≤ data.length → data.take 4 ≠ MAGIC →
      read_and_decrypt C deser fs file_path password
        = .error "Not a valid Tusker export file")
    ∧ (49 ≤ data.length → data.take 4 = MAGIC → data.getD 4 0 ≠ 1 →
      read_and_decrypt C deser fs file_path password
        = .error ("Unsupported file version: " ++ toString (data.getD 4 0)))
    ∧ (49 ≤ data.length → data.take 4 = MAGIC → data.getD 4 0 = 1 →
      C.decrypt (C.deriveKey password ((data.drop 5).take 32))
          ((data.drop 37).take 12) (data.drop 49) = none →
      read_and_decrypt C deser fs file_path password
        = .error "Incorrect password or corrupted file") := by
  refine ⟨?_, ?_, ?_, ?_⟩
  · intro h
    simp only [read_and_decrypt, hread]
    rw [decryptFromBytes, if_pos h]
  · intro h1 h2
    simp only [read_and_decrypt, hread]
    rw [decryptFromBytes, if_neg (Nat.not_lt.mpr h1), if_pos h2]
  · intro h1 h2 h3
    simp only [read_and_decrypt, hread]
    rw [decryptFromBytes, if_neg (Nat.not_lt.mpr h1),
      if_neg (fun hn => hn h2), if_pos h3]
  · intro h1 h2 h3 h4
    simp only [read_and_decrypt, hread]
    rw [decryptFromBytes, if_neg (Nat.not_lt.mpr h1),
      if_neg (fun hn => hn h2), if_neg (fun hn => hn h3), h4]

/-- C4 witness: the taxonomy evaluated at concrete files — too short,
bad magic, bad version, and failing AEAD decryption. -/
theorem read_and_decrypt_error_taxonomy_witness :
    (read_and_decrypt ⟨fun _ _ => [], fun _ _ m => m, fun _ _ _ => none⟩
        (fun _ => none) (fun _ => some [84, 85, 83]) "f" "pw"
        = .error "Invalid file: too short")
    ∧ (read_and_decrypt ⟨fun _ _ => [], fun _ _ m => m, fun _ _ _ => none⟩
        (fun _ => none) (fun _ => some (List.replicate 49 0)) "f" "pw"
        = .error "Not a valid Tusker export file")
    ∧ (read_and_decrypt ⟨fun _ _ => [], fun _ _ m => m, fun _ _ _ => none⟩
        (fun _ => none) (fun _ => some (MAGIC ++ [7] ++ List.replicate 44 0)) "f" "pw"
        = .error "Unsupported file version: 7")
    ∧ (read_and_decrypt ⟨fun _ _ => [], fun _ _ m => m, fun _ _ _ => none⟩
        (fun _ => none) (fun _ => some (MAGIC ++ [1] ++ List.replicate 44 0)) "f" "pw"
        = .error "Incorrect password or corrupted file") := by
  refine ⟨?_, ?_, ?_, ?_⟩
  · exact (read_and_decrypt_error_taxonomy
      ⟨fun _ _ => [], fun _ _ m => m, fun _ _ _ => none⟩ (fun _ => none)
      (fun _ => some [84, 85, 83]) "f" "pw" [84, 85, 83] rfl).1 (by decide)
  · exact (read_and_decrypt_error_taxonomy
      ⟨fun _ _ => [], fun _ _ m => m, fun _ _ _ => none⟩ (fun _ => none)
      (fun _ => some (List.replicate 49 0)) "f" "pw" (List.replicate 49 0)
      rfl).2.1 (by decide) (by decide)
  · exact (read_and_decrypt_error_taxonomy
      ⟨fun _ _ => [], fun _ _ m => m, fun _ _ _ => none⟩ (fun _ => none)
      (fun _ => some (MAGIC ++ [7] ++ List.replicate 44 0)) "f" "pw"
      (MAGIC ++ [7] ++ List.replicate 44 0) rfl).2.2.1 (by decide)
      (by decide) (by decide)
  · exact (read_and_decrypt_error_taxonomy
      ⟨fun _ _ => [], fun _ _ m => m, fun _ _ _ => none⟩ (fun _ => none)
      (fun _ => some (MAGIC ++ [1] ++ List.replicate 44 0)) "f" "pw"
      (MAGIC ++ [1] ++ List.replicate 44 0) rfl).2.2.2 (by decide)
      (by decide) (by decide) rfl

/-- C10: a query returning zero rows yields an empty column list along
with the empty row list; column metadata comes only from the first
returned row; so `fetch_paginated` on a page past the data, and
`execute_raw_query` on a SELECT with no matching rows, both report
`columns = []`. -/
theorem zero_rows_empty_columns :
    rows_to_json ([] : List PgRow) = ([], [])
    ∧ (∀ (r : PgRow) (rs : List PgRow),
        (rows_to_json (r :: rs)).2 = r.map (fun c => ColumnMeta.mk c.name c.typeName))
    ∧ (∀ E schema table page ps ob od filters,
        E.runQuery (fetchDataQuery schema table page ps ob od filters) = [] →
        (fetch_paginated E schema table page ps ob od filters).columns = []
          ∧ (fetch_paginated E schema table page ps ob od filters).rows = [])
    ∧ (∀ E sql, strTrim sql ≠ "" → isSelectSql (strUpper (strTrim sql)) = true →
        E.runQuery (strTrim sql) = [] →
        execute_raw_query E sql = .ok ⟨[], [], 0⟩) := by
  refine ⟨rfl, fun r rs => rfl, ?_, ?_⟩
  · intro E schema table page ps ob od filters h
    constructor <;> simp [fetch_paginated, h, rows_to_json]
  · intro E sql h1 h2 h3
    simp [execute_raw_query, h1, h2, h3, rows_to_json]

/-- C10 witness: the paginated fetch and the raw SELECT evaluated against
an engine that returns no rows. -/
theorem zero_rows_empty_columns_witness :
    ((fetch_paginated ⟨fun _ => 5, fun _ => [], fun _ => 0⟩ "public" "t" 3
        (some 2) none none none).columns = []
      ∧ (fetch_paginated ⟨fun _ => 5, fun _ => [], fun _ => 0⟩ "public" "t" 3
        (some 2) none none none).rows = [])
    ∧ execute_raw_query ⟨fun _ => 5, fun _ => [], fun _ => 0⟩ "SELECT 1"
        = .ok ⟨[], [], 0⟩ := by
  constructor
  · exact zero_rows_empty_columns.2.2.1 ⟨fun _ => 5, fun _ => [], fun _ => 0⟩
      "public" "t" 3 (some 2) none none none rfl
  · exact zero_rows_empty_columns.2.2.2 ⟨fun _ => 5, fun _ => [], fun _ => 0⟩
      "SELECT 1" (by decide) (by decide) rfl

/-- C3: writing an export with `encrypt_and_write(x, p, f)` and reading
it back with `read_and_decrypt(f, p)` succeeds and yields a payload with
`version = 1` and a projects list equal field-for-field to `x`
(including plaintext passwords). The AEAD round trip and the JSON
round trip hold for the library primitives the source calls and appear
here as hypotheses on the abstract crypto and serializer. -/
theorem export_roundtrip (C : ExportCrypto) (ser : ExportPayload → List Nat)
    (deser : List Nat → Option ExportPayload) (fs : ExportFs)
    (x : List ExportedProject) (password file_path now : String)
    (salt nonce : List Nat) (hsalt : salt.length = 32) (hnonce : nonce.length = 12)
    (haead : C.decrypt (C.deriveKey password salt) nonce
        (C.encrypt (C.deriveKey password salt) nonce (ser ⟨1, now, x⟩))
      = some (ser ⟨1, now, x⟩))
    (hser : deser (ser ⟨1, now, x⟩) = some ⟨1, now, x⟩) :
    ∃ payload, read_and_decrypt C deser
        (encrypt_and_write C ser fs x password file_path now salt nonce)
        file_path password = .ok payload
      ∧ payload.version = 1 ∧ payload.projects = x := by
  refine ⟨⟨1, now, x⟩, ?_, rfl, rfl⟩
  have hdata : encryptToBytes C ser x password now salt nonce
      = 84 :: 85 :: 83 :: 75 :: 1 :: (salt ++ (nonce
        ++ C.encrypt (C.deriveKey password salt) nonce (ser ⟨1, now, x⟩))) := by
    simp [encryptToBytes, MAGIC]
  simp only [read_and_decrypt, encrypt_and_write, writeFile, hdata,
    eq_self_iff_true, if_true]
  have hlen : ¬ (84 :: 85 :: 83 :: 75 :: 1 :: (salt ++ (nonce
      ++ C.encrypt (C.deriveKey password salt) nonce (ser ⟨1, now, x⟩)))).length < 49 := by
    simp [hsalt, hnonce]
    omega
  rw [decryptFromBytes, if_neg hlen, if_neg (by simp [MAGIC]),
    if_neg (by simp [List.getD])]
  have hdrop5 : (84 :: 85 :: 83 :: 75 :: 1 :: (salt ++ (nonce
      ++ C.encrypt (C.deriveKey password salt) nonce (ser ⟨1, now, x⟩)))).drop 5
      = salt ++ (nonce ++ C.encrypt (C.deriveKey password salt) nonce
          (ser ⟨1, now, x⟩)) := rfl
  have hdrop37 : (84 :: 85 :: 83 :: 75 :: 1 :: (salt ++ (nonce
      ++ C.encrypt (C.deriveKey password salt) nonce (ser ⟨1, now, x⟩)))).drop 37
      = nonce ++ C.encrypt (C.deriveKey password salt) nonce (ser ⟨1, now, x⟩) := by
    show (salt ++ (nonce ++ _)).drop 32 = _
    exact List.drop_left' hsalt
  have hdrop49 : (84 :: 85 :: 83 :: 75 :: 1 :: (salt ++ (nonce
      ++ C.encrypt (C.deriveKey password salt) nonce (ser ⟨1, now, x⟩)))).drop 49
      = C.encrypt (C.deriveKey password salt) nonce (ser ⟨1, now, x⟩) := by
    rw [show (49 : Nat) = 37 + 12 from rfl, ← List.drop_drop, hdrop37]
    exact List.drop_left' hnonce
  rw [hdrop5, hdrop37, hdrop49, List.take_left' hsalt, List.take_left' hnonce,
    haead]
  simp [hser]

/-- C3 witness: the round trip evaluated at a concrete project list,
password, filesystem, crypto and serializer. -/
theorem export_roundtrip_witness :
    ∃ payload, read_and_decrypt
        ⟨fun pw s => strBytes pw ++ s, fun k n m => k ++ n ++ m,
         fun k n c => if (k ++ n).isPrefixOf c
           then some (c.drop (k ++ n).length) else none⟩
        (fun bs => if bs = [42] then some ⟨1, "2026-01-01T00:00:00Z",
          [⟨"Test DB", "blue", "localhost", 5432, "testdb", "postgres",
            "secret123", false, false, false, none, "2026-01-01T00:00:00Z"⟩]⟩
          else none)
        (encrypt_and_write
          ⟨fun pw s => strBytes pw ++ s, fun k n m => k ++ n ++ m,
           fun k n c => if (k ++ n).isPrefixOf c
             then some (c.drop (k ++ n).length) else none⟩
          (fun _ => [42]) (fun _ => none)
          [⟨"Test DB", "blue", "localhost", 5432, "testdb", "postgres",
            "secret123", false, false, false, none, "2026-01-01T00:00:00Z"⟩]
          "pw123" "export.tusker" "2026-01-01T00:00:00Z"
          (List.replicate 32 7) (List.replicate 12 9))
        "export.tusker" "pw123" = .ok payload
      ∧ payload.version = 1
      ∧ payload.projects = [⟨"Test DB", "blue", "localhost", 5432, "testdb",
          "postgres", "secret123", false, false, false, none,
          "2026-01-01T00:00:00Z"⟩] := by
  exact export_roundtrip _ _ _ _ _ "pw123" "export.tusker" "2026-01-01T00:00:00Z"
    (List.replicate 32 7) (List.replicate 12 9) (by decide) (by decide)
    (by decide) (by decide)

theorem build_where_clause_skip (fs1 fs2 : List FilterCondition)
    (bad : FilterCondition) (hbad : renderCondition bad = none) :
    build_where_clause (fs1 ++ bad :: fs2) = build_where_clause (fs1 ++ fs2) := by
  simp [build_where_clause, List.filterMap_append, List.filterMap_cons, hbad]

theorem fetchWhereClause_skip (fs1 fs2 : List FilterCondition)
    (bad : FilterCondition) (hbad : renderCondition bad = none) :
    fetchWhereClause (some (fs1 ++ bad :: fs2))
      = fetchWhereClause (some (fs1 ++ fs2)) := by
  by_cases he : fs1 ++ fs2 = []
  · obtain ⟨h1, h2⟩ := List.append_eq_nil.mp he
    subst h1
    subst h2
    simp [fetchWhereClause, build_where_clause, hbad]
  · have hne : fs1 ++ bad :: fs2 ≠ [] := by simp
    simp only [fetchWhereClause, List.isEmpty_iff]
    rw [if_neg hne, if_neg he, build_where_clause_skip fs1 fs2 bad hbad]

/-- C7: a filter condition with operator `in` and an empty values list,
and any condition missing its required value field(s), contributes no
predicate to either the count query or the data query (which share the
same WHERE clause); so on a 5-row table, page 1 and page size 2, a
single empty-`in` filter yields 2 rows, `total_count = 5` and
`total_pages = 3` (the ceiling of `total_count / page_size`). -/
theorem empty_in_filter_skipped :
    (∀ E schema table page ps ob od (fs1 fs2 : List FilterCondition) bad,
      renderCondition bad = none →
      fetch_paginated E schema table page ps ob od (some (fs1 ++ bad :: fs2))
        = fetch_paginated E schema table page ps ob od (some (fs1 ++ fs2)))
    ∧ (∀ col v2 vs op, op ∈ ([.equals, .notEquals, .greaterThan, .lessThan,
        .greaterThanOrEqual, .lessThanOrEqual, .contains, .notContains,
        .startsWith, .endsWith] : List FilterOperator) →
      renderCondition ⟨col, op, none, v2, vs⟩ = none)
    ∧ (∀ col v vs, renderCondition ⟨col, .between, v, none, vs⟩ = none)
    ∧ (∀ col v2 vs, renderCondition ⟨col, .between, none, v2, vs⟩ = none)
    ∧ (∀ col v v2, renderCondition ⟨col, .inList, v, v2, none⟩ = none)
    ∧ (∀ col v v2, renderCondition ⟨col, .inList, v, v2, some []⟩ = none)
    ∧ (∀ E : PgEngine,
      E.runCount "SELECT COUNT(*) FROM \"public\".\"t\" " = 5 →
      (E.runQuery "SELECT * FROM \"public\".\"t\"   LIMIT 2 OFFSET 0").length = 2 →
      (fetch_paginated E "public" "t" 1 (some 2) (some []) (some [])
          (some [⟨"id", .inList, none, none, some []⟩])).rows.length = 2
        ∧ (fetch_paginated E "public" "t" 1 (some 2) (some []) (some [])
          (some [⟨"id", .inList, none, none, some []⟩])).total_count = 5
        ∧ (fetch_paginated E "public" "t" 1 (some 2) (some []) (some [])
          (some [⟨"id", .inList, none, none, some []⟩])).total_pages = 3) := by
  refine ⟨?_, ?_, ?_, ?_, ?_, ?_, ?_⟩
  · intro E schema table page ps ob od fs1 fs2 bad hbad
    simp only [fetch_paginated, fetchCountQuery, fetchDataQuery,
      fetchWhereClause_skip fs1 fs2 bad hbad]
  · intro col v2 vs op hop
    simp only [List.mem_cons, List.not_mem_nil, or_false] at hop
    rcases hop with rfl | rfl | rfl | rfl | rfl | rfl | rfl | rfl | rfl | rfl <;> rfl
  · intro col v vs
    cases v <;> rfl
  · intro col v2 vs
    rfl
  · intro col v v2
    rfl
  · intro col v v2
    rfl
  · intro E h1 h2
    have hc : fetchCountQuery "public" "t"
        (some [⟨"id", .inList, none, none, some []⟩])
        = "SELECT COUNT(*) FROM \"public\".\"t\" " := by decide
    have hd : fetchDataQuery "public" "t" 1 (some 2) (some []) (some [])
        (some [⟨"id", .inList, none, none, some []⟩])
        = "SELECT * FROM \"public\".\"t\"   LIMIT 2 OFFSET 0" := by decide
    refine ⟨?_, ?_, ?_⟩
    · simp only [fetch_paginated, hd, rows_to_json_fst_length]
      exact h2
    · simp only [fetch_paginated, hc]
      exact h1
    · simp only [fetch_paginated, hc, h1]
      decide

/-- C7 witness: the skip equality, the renderings and the concrete
5-row-table scenario evaluated against a concrete engine. -/
theorem empty_in_filter_skipped_witness :
    fetch_paginated ⟨fun _ => 5,
        fun _ => [[⟨"id", "INT4", Json.num 1⟩], [⟨"id", "INT4", Json.num 2⟩]],
        fun _ => 0⟩ "public" "t" 1 (some 2) (some []) (some [])
        (some ([] ++ (⟨"id", .inList, none, none, some []⟩ : FilterCondition) :: []))
      = fetch_paginated ⟨fun _ => 5,
        fun _ => [[⟨"id", "INT4", Json.num 1⟩], [⟨"id", "INT4", Json.num 2⟩]],
        fun _ => 0⟩ "public" "t" 1 (some 2) (some []) (some []) (some ([] ++ []))
    ∧ renderCondition ⟨"c", .equals, none, none, none⟩ = none
    ∧ ((fetch_paginated ⟨fun _ => 5,
        fun _ => [[⟨"id", "INT4", Json.num 1⟩], [⟨"id", "INT4", Json.num 2⟩]],
        fun _ => 0⟩ "public" "t" 1 (some 2) (some []) (some [])
          (some [⟨"id", .inList, none, none, some []⟩])).rows.length = 2
      ∧ (fetch_paginated ⟨fun _ => 5,
        fun _ => [[⟨"id", "INT4", Json.num 1⟩], [⟨"id", "INT4", Json.num 2⟩]],
        fun _ => 0⟩ "public" "t" 1 (some 2) (some []) (some [])
          (some [⟨"id", .inList, none, none, some []⟩])).total_count = 5
      ∧ (fetch_paginated ⟨fun _ => 5,
        fun _ => [[⟨"id", "INT4", Json.num 1⟩], [⟨"id", "INT4", Json.num 2⟩]],
        fun _ => 0⟩ "public" "t" 1 (some 2) (some []) (some [])
          (some [⟨"id", .inList, none, none, some []⟩])).total_pages = 3) := by
  refine ⟨?_, ?_, ?_⟩
  · exact empty_in_filter_skipped.1 _ "public" "t" 1 (some 2) (some []) (some [])
      [] [] ⟨"id", .inList, none, none, some []⟩ rfl
  · exact empty_in_filter_skipped.2.1 "c" none none .equals (by simp)
  · exact empty_in_filter_skipped.2.2.2.2.2.2 _ rfl rfl

theorem escapeChain (l : List Char) :
    (((l.flatMap (fun x => if x = bslashChar then [bslashChar, bslashChar] else [x])).flatMap
        (fun x => if x = '%' then [bslashChar, '%'] else [x])).flatMap
        (fun x => if x = '_' then [bslashChar, '_'] else [x])).flatMap
        (fun x => if x = squoteChar then [squoteChar, squoteChar] else [x])
      = l.flatMap claimEscapedChar := by
  induction l with
  | nil => rfl
  | cons x l ih =>
      simp only [List.flatMap_cons, List.flatMap_append]
      rw [ih]
      congr 1
      by_cases hb : x = bslashChar
      · subst hb
        decide
      · by_cases hp : x = '%'
        · subst hp
          decide
        · by_cases hu : x = '_'
          · subst hu
            decide
          · by_cases hq : x = squoteChar
            · subst hq
              decide
            · simp [hb, hp, hu, hq, claimEscapedChar]

theorem escape_sql_like_eq_claim (v : String) :
    escape_sql_string (escape_like_pattern v) = claimEscape v := by
  apply String.ext
  show ((((v.toList.flatMap _).flatMap _).flatMap _).flatMap _ : List Char) = _
  exact escapeChain v.toList

theorem escape_sql_append (a b : String) :
    escape_sql_string (a ++ b) = escape_sql_string a ++ escape_sql_string b := by
  unfold escape_sql_string replaceChar
  apply String.ext
  show (a.toList ++ b.toList).flatMap _ = _
  rw [List.flatMap_append]
  rfl

theorem escape_sql_pct : escape_sql_string "%" = "%" := by decide

theorem likeMatch_nil_eq (ps : List Char) :
    likeMatch ('%' :: ps) [] = likeMatch ps [] := by
  conv_lhs => rw [likeMatch.eq_def]
  simp

theorem likeMatch_percent_cons (ps : List Char) (x : Char) (t : List Char) :
    likeMatch ('%' :: ps) (x :: t)
      = (likeMatch ps (x :: t) || likeMatch ('%' :: ps) t) := by
  conv_lhs => rw [likeMatch.eq_def]
  simp [show ('%' = bslashChar) = False from by decide]

theorem likeMatch_percent (ps : List Char) (t : List Char) :
    likeMatch ('%' :: ps) t = true ↔ ∃ n, likeMatch ps (t.drop n) = true := by
  induction t with
  | nil =>
      rw [likeMatch_nil_eq]
      constructor
      · intro h
        exact ⟨0, h⟩
      · rintro ⟨n, h⟩
        simpa using h
  | cons x t ih =>
      rw [likeMatch_percent_cons]
      constructor
      · intro h
        have h2 : likeMatch ps (x :: t) = true ∨ likeMatch ('%' :: ps) t = true := by
          simpa using h
        rcases h2 with h1 | h2
        · exact ⟨0, h1⟩
        · obtain ⟨n, hn⟩ := ih.mp h2
          exact ⟨n + 1, hn⟩
      · rintro ⟨n, hn⟩
        have h2 : likeMatch ps (x :: t) = true ∨ likeMatch ('%' :: ps) t = true := by
          cases n with
          | zero => exact Or.inl hn
          | succ n => exact Or.inr (ih.mpr ⟨n, hn⟩)
        simpa using h2

theorem likeMatch_empty_nil : likeMatch [] [] = true := by
  rw [likeMatch.eq_def]

theorem likeMatch_single_percent (t : List Char) : likeMatch ['%'] t = true := by
  refine (likeMatch_percent [] t).mpr ⟨t.length, ?_⟩
  rw [List.drop_length]
  exact likeMatch_empty_nil

theorem likeMatch_pat5_nil :
    likeMatch ['5', '0', bslashChar, '%', '%'] [] = false := by
  rw [likeMatch.eq_def]
  simp [show ('5' = '%') = False from by decide]

theorem likeMatch_pat0_nil :
    likeMatch ['0', bslashChar, '%', '%'] [] = false := by
  rw [likeMatch.eq_def]
  simp [show ('0' = '%') = False from by decide]

theorem likeMatch_patb_nil :
    likeMatch [bslashChar, '%', '%'] [] = false := by
  rw [likeMatch.eq_def]
  simp [show (bslashChar = '%') = False from by decide]

theorem likeMatch_patb_cons (z : Char) (s : List Char) :
    likeMatch [bslashChar, '%', '%'] (z :: s)
      = (('%' == z) && likeMatch ['%'] s) := by
  conv_lhs => rw [likeMatch.eq_def]
  simp

theorem likeMatch_pat0_cons (y : Char) (s : List Char) :
    likeMatch ['0', bslashChar, '%', '%'] (y :: s)
      = (('0' == y) && likeMatch [bslashChar, '%', '%'] s) := by
  conv_lhs => rw [likeMatch.eq_def]
  simp [show ('0' = bslashChar) = False from by decide,
    show ('0' = '%') = False from by decide,
    show ('0' = '_') = False from by decide]

theorem likeMatch_pat5_cons (x : Char) (s : List Char) :
    likeMatch ['5', '0', bslashChar, '%', '%'] (x :: s)
      = (('5' == x) && likeMatch ['0', bslashChar, '%', '%'] s) := by
  conv_lhs => rw [likeMatch.eq_def]
  simp [show ('5' = bslashChar) = False from by decide,
    show ('5' = '%') = False from by decide,
    show ('5' = '_') = False from by decide]

theorem likeMatch_50_tail (s : List Char) :
    likeMatch ['5', '0', bslashChar, '%', '%'] s = true
      ↔ ∃ b, s = '5' :: '0' :: '%' :: b := by
  cases s with
  | nil =>
      rw [likeMatch_pat5_nil]
      simp
  | cons x s =>
      rw [likeMatch_pat5_cons]
      cases s with
      | nil =>
          rw [likeMatch_pat0_nil]
          simp
      | cons y s =>
          rw [likeMatch_pat0_cons]
          cases s with
          | nil =>
              rw [likeMatch_patb_nil]
              simp
          | cons z s =>
              rw [likeMatch_patb_cons]
              simp only [likeMatch_single_percent, Bool.and_true, Bool.and_eq_true,
                beq_iff_eq]
              constructor
              · rintro ⟨h1, h2, h3⟩
                subst h1
                subst h2
                subst h3
                exact ⟨s, rfl⟩
              · rintro ⟨b, hb⟩
                injection hb with h1 hb
                injection hb with h2 hb
                injection hb with h3 hb
                subst h1
                subst h2
                subst h3
                subst hb
                exact ⟨rfl, rfl, rfl⟩

theorem escape_sql_wrap_pct (v : String) :
    escape_sql_string ("%" ++ escape_like_pattern v ++ "%")
      = "%" ++ claimEscape v ++ "%" := by
  rw [escape_sql_append, escape_sql_append, escape_sql_pct, escape_sql_like_eq_claim]

theorem escape_sql_starts_payload (v : String) :
    escape_sql_string (escape_like_pattern v ++ "%") = claimEscape v ++ "%" := by
  rw [escape_sql_append, escape_sql_pct, escape_sql_like_eq_claim]

theorem escape_sql_ends_payload (v : String) :
    escape_sql_string ("%" ++ escape_like_pattern v) = "%" ++ claimEscape v := by
  rw [escape_sql_append, escape_sql_pct, escape_sql_like_eq_claim]

/-- C6: a `contains` filter renders `col::text ILIKE '%p%' ESCAPE '\\'`
where `p` is the value with every backslash, percent and underscore
preceded by a backslash and every single quote doubled (analogously for
`not_contains`, `starts_with`, `ends_with`); consequently the pattern a
`contains("50%")` filter sends to the server matches exactly the texts
containing the literal substring `50%`. -/
theorem contains_filter_escapes_literal :
    (∀ col v v2 vs, renderCondition ⟨col, .contains, some v, v2, vs⟩
        = some (quote_identifier col ++ "::text ILIKE "
            ++ sq ("%" ++ claimEscape v ++ "%") ++ " ESCAPE " ++ sq bslashStr))
    ∧ (∀ col v v2 vs, renderCondition ⟨col, .notContains, some v, v2, vs⟩
        = some (quote_identifier col ++ "::text NOT ILIKE "
            ++ sq ("%" ++ claimEscape v ++ "%") ++ " ESCAPE " ++ sq bslashStr))
    ∧ (∀ col v v2 vs, renderCondition ⟨col, .startsWith, some v, v2, vs⟩
        = some (quote_identifier col ++ "::text ILIKE "
            ++ sq (claimEscape v ++ "%") ++ " ESCAPE " ++ sq bslashStr))
    ∧ (∀ col v v2 vs, renderCondition ⟨col, .endsWith, some v, v2, vs⟩
        = some (quote_identifier col ++ "::text ILIKE "
            ++ sq ("%" ++ claimEscape v) ++ " ESCAPE " ++ sq bslashStr))
    ∧ (∀ t : List Char,
        likeMatch (("%" ++ escape_like_pattern "50%" ++ "%").toList) t = true
          ↔ ∃ a b, t = a ++ ('5' :: '0' :: '%' :: []) ++ b) := by
  refine ⟨?_, ?_, ?_, ?_, ?_⟩
  · intro col v v2 vs
    simp [renderCondition, escape_sql_wrap_pct]
  · intro col v v2 vs
    simp [renderCondition, escape_sql_wrap_pct]
  · intro col v v2 vs
    simp [renderCondition, escape_sql_starts_payload]
  · intro col v v2 vs
    simp [renderCondition, escape_sql_ends_payload]
  · intro t
    have hpat : ("%" ++ escape_like_pattern "50%" ++ "%").toList
        = '%' :: ['5', '0', bslashChar, '%', '%'] := by decide
    rw [hpat, likeMatch_percent]
    constructor
    · rintro ⟨n, hn⟩
      obtain ⟨b, hb⟩ := (likeMatch_50_tail _).mp hn
      refine ⟨t.take n, b, ?_⟩
      rw [List.append_assoc]
      show t = t.take n ++ ('5' :: '0' :: '%' :: b)
      rw [← hb]
      exact (List.take_append_drop n t).symm
    · rintro ⟨a, b, rfl⟩
      refine ⟨a.length, ?_⟩
      rw [List.append_assoc, List.drop_left]
      exact (likeMatch_50_tail _).mpr ⟨b, rfl⟩

theorem latest_fold_spec (l : List Commit) (a : Commit) :
    ∃ c, l.foldl latestFold (some a) = some c
      ∧ (c = a ∨ c ∈ l)
      ∧ a.created_at ≤ c.created_at
      ∧ ∀ b ∈ l, b.created_at ≤ c.created_at := by
  induction l generalizing a with
  | nil => exact ⟨a, rfl, Or.inl rfl, le_refl _, by simp⟩
  | cons x l ih =>
      by_cases hlt : a.created_at < x.created_at
      · obtain ⟨c, hc1, hc2, hc3, hc4⟩ := ih x
        refine ⟨c, ?_, ?_, ?_, ?_⟩
        · simpa [latestFold, hlt] using hc1
        · rcases hc2 with rfl | h
          · exact Or.inr (List.mem_cons_self _ _)
          · exact Or.inr (List.mem_cons_of_mem _ h)
        · exact le_trans (le_of_lt hlt) hc3
        · intro b hb
          rcases List.mem_cons.mp hb with rfl | hb2
          · exact hc3
          · exact hc4 b hb2
      · obtain ⟨c, hc1, hc2, hc3, hc4⟩ := ih a
        refine ⟨c, ?_, ?_, hc3, ?_⟩
        · simpa [latestFold, hlt] using hc1
        · rcases hc2 with rfl | h
          · exact Or.inl rfl
          · exact Or.inr (List.mem_cons_of_mem _ h)
        · intro b hb
          rcases List.mem_cons.mp hb with rfl | hb2
          · exact le_trans (not_lt.mp hlt) hc3
          · exact hc4 b hb2

theorem get_latest_max (db : CommitDb) (h : db.commits ≠ []) :
    ∃ c ∈ db.commits, get_latest_commit_id db = some c.id
      ∧ ∀ b ∈ db.commits, b.created_at ≤ c.created_at := by
  obtain ⟨x, l, hxl⟩ := List.exists_cons_of_ne_nil h
  obtain ⟨c, hc1, hc2, hc3, hc4⟩ := latest_fold_spec l x
  refine ⟨c, ?_, ?_, ?_⟩
  · rw [hxl]
    rcases hc2 with rfl | hm
    · exact List.mem_cons_self _ _
    · exact List.mem_cons_of_mem _ hm
  · rw [get_latest_commit_id, hxl]
    show ((l.foldl latestFold (latestFold none x)).map (fun c => c.id)) = _
    rw [show latestFold none x = some x from rfl, hc1]
    rfl
  · intro b hb
    rw [hxl] at hb
    rcases List.mem_cons.mp hb with rfl | hb2
    · exact hc3
    · exact hc4 b hb2

theorem hexDigit_mem (k : Nat) (hk : k < 16) :
    hexDigit k ∈ "0123456789abcdef".toList := by
  interval_cases k <;> decide

theorem hexEncodeBytes_mem (bs : List Nat) (c : Char)
    (hc : c ∈ (hexEncodeBytes bs).toList) : c ∈ "0123456789abcdef".toList := by
  simp only [hexEncodeBytes] at hc
  have hc2 : c ∈ bs.flatMap (fun b => [hexDigit (b / 16 % 16), hexDigit (b % 16)]) := hc
  obtain ⟨b, _, hb2⟩ := List.mem_flatMap.mp hc2
  rcases List.mem_cons.mp hb2 with rfl | hb3
  · exact hexDigit_mem _ (Nat.mod_lt _ (by omega))
  · rcases List.mem_cons.mp hb3 with rfl | hb4
    · exact hexDigit_mem _ (Nat.mod_lt _ (by omega))
    · cases hb4

theorem hexEncodeBytes_length (bs : List Nat) :
    (hexEncodeBytes bs).length = 2 * bs.length := by
  induction bs with
  | nil => rfl
  | cons b bs ih =>
      show (hexEncodeBytes (b :: bs)).length = _
      simp only [hexEncodeBytes] at ih ⊢
      simp only [List.flatMap_cons]
      show (String.mk _).length = _
      simp only [String.length, List.length_append, List.length_cons]
      have ih2 : (bs.flatMap (fun b => [hexDigit (b / 16 % 16), hexDigit (b % 16)])).length
          = 2 * bs.length := ih
      simp [ih2]
      omega

/-- C5: the stored commit's id is the lowercase hex SHA-256 of the parent
id (or the literal `"root"`), then the timestamp, then each change's SQL
in input order; the parent is the existing commit with the newest
`created_at` (absent for the first commit); each change is stored with
`sort_order` equal to its input index; and two commits saved in
succession from an empty store chain (the second's `parent_id` is the
first's id), both ids being 64-character lowercase hex strings. -/
theorem save_commit_hash_chain (sha256 : List Nat → List Nat)
    (h32 : ∀ bs, (sha256 bs).length = 32) :
    (∀ db req now,
      (save_commit sha256 db req now).1.id
          = hexEncodeBytes (sha256 (strBytes ((get_latest_commit_id db).getD "root")
              ++ strBytes now
              ++ ((req.changes.map (fun c => c.sql)).map strBytes).flatten))
        ∧ (save_commit sha256 db req now).1.parent_id = get_latest_commit_id db
        ∧ (save_commit sha256 db req now).1.created_at = now
        ∧ (save_commit sha256 db req now).1.id.length = 64
        ∧ (∀ ch ∈ ((save_commit sha256 db req now).1.id).toList,
            ch ∈ "0123456789abcdef".toList)
        ∧ ((save_commit sha256 db req now).2.changes.drop db.changes.length).map
            (fun ch => (ch.sql, ch.sort_order))
          = req.changes.enum.map (fun p => (p.2.sql, Int.ofNat p.1)))
    ∧ (∀ db : CommitDb, db.commits = [] → get_latest_commit_id db = none)
    ∧ (∀ db : CommitDb, db.commits ≠ [] → ∃ c ∈ db.commits,
        get_latest_commit_id db = some c.id
          ∧ ∀ b ∈ db.commits, b.created_at ≤ c.created_at)
    ∧ (∀ req1 req2 now1 now2,
        (save_commit sha256 (save_commit sha256 CommitDb.empty req1 now1).2
            req2 now2).1.parent_id
          = some (save_commit sha256 CommitDb.empty req1 now1).1.id
        ∧ (save_commit sha256 CommitDb.empty req1 now1).1.parent_id = none) := by
  refine ⟨?_, ?_, ?_, ?_⟩
  · intro db req now
    refine ⟨rfl, rfl, rfl, ?_, ?_, ?_⟩
    · show (hexEncodeBytes (sha256 _)).length = 64
      rw [hexEncodeBytes_length, h32]
    · intro ch hch
      exact hexEncodeBytes_mem _ ch hch
    · show ((db.changes ++ _).drop db.changes.length).map _ = _
      rw [List.drop_left]
      rw [List.map_map]
      rfl
  · intro db h
    simp [get_latest_commit_id, h]
  · intro db h
    exact get_latest_max db h
  · intro req1 req2 now1 now2
    constructor
    · show (get_latest_commit_id (save_commit sha256 CommitDb.empty req1 now1).2)
        = some (save_commit sha256 CommitDb.empty req1 now1).1.id
      rw [get_latest_commit_id]
      show ((((CommitDb.empty.commits) ++ [_]).foldl latestFold none).map _) = _
      rfl
    · rfl

/-- C5 witness: two successive saves from an empty store with a
length-32 constant hash evaluated concretely. -/
theorem save_commit_hash_chain_witness :
    (save_commit (fun _ => List.replicate 32 0)
        (save_commit (fun _ => List.replicate 32 0) CommitDb.empty
          ⟨"P", "m1", "s1", [⟨"insert", "public", "t", "\x7b\x7d", none,
            "INSERT INTO t DEFAULT VALUES"⟩]⟩
          "2026-01-01T00:00:00+00:00").2
        ⟨"P", "m2", "s2", []⟩ "2026-01-02T00:00:00+00:00").1.parent_id
      = some (save_commit (fun _ => List.replicate 32 0) CommitDb.empty
          ⟨"P", "m1", "s1", [⟨"insert", "public", "t", "\x7b\x7d", none,
            "INSERT INTO t DEFAULT VALUES"⟩]⟩
          "2026-01-01T00:00:00+00:00").1.id
    ∧ (save_commit (fun _ => List.replicate 32 0) CommitDb.empty
          ⟨"P", "m1", "s1", [⟨"insert", "public", "t", "\x7b\x7d", none,
            "INSERT INTO t DEFAULT VALUES"⟩]⟩
          "2026-01-01T00:00:00+00:00").1.parent_id = none
    ∧ (save_commit (fun _ => List.replicate 32 0) CommitDb.empty
          ⟨"P", "m1", "s1", [⟨"insert", "public", "t", "\x7b\x7d", none,
            "INSERT INTO t DEFAULT VALUES"⟩]⟩
          "2026-01-01T00:00:00+00:00").1.id.length = 64 := by
  refine ⟨?_, ?_, ?_⟩
  · exact ((save_commit_hash_chain (fun _ => List.replicate 32 0)
      (fun bs => by simp)).2.2.2 _ ⟨"P", "m2", "s2", []⟩ _
      "2026-01-02T00:00:00+00:00").1
  · exact ((save_commit_hash_chain (fun _ => List.replicate 32 0)
      (fun bs => by simp)).2.2.2 _ ⟨"P", "m2", "s2", []⟩ _
      "2026-01-02T00:00:00+00:00").2
  · exact ((save_commit_hash_chain (fun _ => List.replicate 32 0)
      (fun bs => by simp)).1 CommitDb.empty _ _).2.2.2.1

theorem discover_mem (username : String) (ports : List Nat)
    (probe : Nat → AuthStatus × List String)
    (existing : List (String × Nat × String)) (d : DiscoveredDatabase) :
    d ∈ discover_local_databases username ports probe existing
      ↔ ∃ port ∈ ports, (probe port).2 ≠ [unreachableSentinel]
          ∧ ∃ dbName ∈ (probe port).2,
              d = ⟨"localhost", port, dbName, username, (probe port).1,
                existing.any (fun e => (e.1 == "localhost" || e.1 == "127.0.0.1")
                  && e.2.1 == port && e.2.2 == dbName)⟩ := by
  unfold discover_local_databases
  rw [(List.perm_insertionSort _ _).mem_iff]
  constructor
  · intro h
    obtain ⟨port, hport, hmem⟩ := List.mem_flatMap.mp h
    by_cases hs : (probe port).2 = [unreachableSentinel]
    · rw [if_pos hs] at hmem
      cases hmem
    · rw [if_neg hs] at hmem
      obtain ⟨dbName, hdb, rfl⟩ := List.mem_map.mp hmem
      exact ⟨port, hport, hs, dbName, hdb, rfl⟩
  · rintro ⟨port, hport, hs, dbName, hdb, rfl⟩
    refine List.mem_flatMap.mpr ⟨port, hport, ?_⟩
    rw [if_neg hs]
    exact List.mem_map.mpr ⟨dbName, hdb, rfl⟩

/-- C9: the discovery result is sorted by `(port, database_name)`,
contains no entry named with the internal sentinel `__unreachable__` (a
server whose probe fails with a non-authentication error contributes no
entries at all), and marks `already_imported` exactly when some existing
`(host, port, database)` tuple has host `localhost` or `127.0.0.1` and
the same port and database name. The hypothesis captures the shape of
`probe_server`'s output: the sentinel only ever occurs as the whole
singleton answer. -/
theorem discover_sorted_filtered_marked (username : String) (ports : List Nat)
    (probe : Nat → AuthStatus × List String)
    (existing : List (String × Nat × String))
    (hsent : ∀ p, (probe p).2 = [unreachableSentinel]
        ∨ unreachableSentinel ∉ (probe p).2) :
    List.Pairwise discoverOrder
      (discover_local_databases username ports probe existing)
    ∧ (∀ d ∈ discover_local_databases username ports probe existing,
        d.database_name ≠ unreachableSentinel)
    ∧ (∀ port, (probe port).2 = [unreachableSentinel] →
        ∀ d ∈ discover_local_databases username ports probe existing,
          d.port ≠ port)
    ∧ (∀ d ∈ discover_local_databases username ports probe existing,
        d.already_imported = existing.any (fun e =>
          (e.1 == "localhost" || e.1 == "127.0.0.1") && e.2.1 == d.port
            && e.2.2 == d.database_name)) := by
  refine ⟨?_, ?_, ?_, ?_⟩
  · exact List.sorted_insertionSort discoverOrder _
  · intro d hd
    obtain ⟨port, _, hs, dbName, hdb, rfl⟩ :=
      (discover_mem username ports probe existing d).mp hd
    rcases hsent port with h | h
    · exact absurd h hs
    · intro hcontra
      exact h (hcontra ▸ hdb)
  · intro port hsp d hd hpd
    obtain ⟨port2, _, hs, dbName, hdb, rfl⟩ :=
      (discover_mem username ports probe existing d).mp hd
    have h2 : port2 = port := hpd
    subst h2
    exact hs hsp
  · intro d hd
    obtain ⟨port, _, hs, dbName, hdb, rfl⟩ :=
      (discover_mem username ports probe existing d).mp hd
    rfl

/-- C9 witness: discovery over one trust-mode server with two databases
and no existing connections. -/
theorem discover_sorted_filtered_marked_witness :
    List.Pairwise discoverOrder
      (discover_local_databases "u" [5432]
        (fun _ => (AuthStatus.trust, ["app", "postgres"])) [])
    ∧ (∀ d ∈ discover_local_databases "u" [5432]
        (fun _ => (AuthStatus.trust, ["app", "postgres"])) [],
        d.database_name ≠ unreachableSentinel) := by
  have h := discover_sorted_filtered_marked "u" [5432]
    (fun _ => (AuthStatus.trust, ["app", "postgres"])) []
    (fun p => Or.inr (by show unreachableSentinel ∉ ["app", "postgres"]; decide))
  exact ⟨h.1, h.2.1⟩

theorem nonEmptyTrimmed_cons (s : String) (l : List String) :
    nonEmptyTrimmed (s :: l)
      = if strTrim s = "" then nonEmptyTrimmed l
        else strTrim s :: nonEmptyTrimmed l := by
  simp only [nonEmptyTrimmed, List.map_cons, List.filter_cons]
  by_cases h : strTrim s = ""
  · simp [h]
  · simp [h]

theorem rollback_declared {σ : Type} (name : String) (s1 dbs : σ)
    (sps : List (String × σ)) :
    rollbackToSavepoint name ⟨s1, (name, dbs) :: sps⟩ = ⟨dbs, (name, dbs) :: sps⟩ := by
  simp [rollbackToSavepoint, findSavepoint]

theorem migrationLoop_apply {σ : Type} (T : PgTx σ) (l : List (Nat × String)) :
    ∀ ts : TxState σ, migrationLoop T false ts l
      = ⟨⟨(applySpecLoop T ts.db (nonEmptyTrimmed (l.map Prod.snd))).1, ts.savepoints⟩,
         (applySpecLoop T ts.db (nonEmptyTrimmed (l.map Prod.snd))).2.1,
         (applySpecLoop T ts.db (nonEmptyTrimmed (l.map Prod.snd))).2.2,
         !(applySpecLoop T ts.db (nonEmptyTrimmed (l.map Prod.snd))).2.2⟩ := by
  induction l with
  | nil =>
      intro ts
      rfl
  | cons p l ih =>
      intro ts
      obtain ⟨i, stmt⟩ := p
      simp only [migrationLoop, List.map_cons, nonEmptyTrimmed_cons]
      by_cases h : strTrim stmt = ""
      · rw [if_pos h, if_pos h, ih ts]
      · rw [if_neg h, if_neg h]
        simp only [Bool.false_eq_true, if_false]
        rcases hE : T.exec ts.db (strTrim stmt) with ⟨s1, r⟩
        cases r with
        | ok n =>
            simp only [hE, applySpecLoop, ih ⟨s1, ts.savepoints⟩]
        | error e =>
            simp only [hE, applySpecLoop]
            rfl

theorem drySpecLoop_sqls {σ : Type} (T : PgTx σ) :
    ∀ (s : σ) (l : List String),
      (drySpecLoop T s l).map (fun r => r.sql) = l := by
  intro s l
  induction l generalizing s with
  | nil => rfl
  | cons stmt l ih =>
      rcases hE : T.exec s stmt with ⟨s1, r⟩
      cases r with
      | ok n => simp [drySpecLoop, hE, ih]
      | error e => simp [drySpecLoop, hE, ih]

theorem migrationLoop_dry {σ : Type} (T : PgTx σ) (l : List (Nat × String)) :
    ∀ ts : TxState σ,
      (migrationLoop T true ts l).results
          = drySpecLoop T ts.db (nonEmptyTrimmed (l.map Prod.snd))
        ∧ (migrationLoop T true ts l).allOk
          = (drySpecLoop T ts.db (nonEmptyTrimmed (l.map Prod.snd))).all
              (fun r => r.ok)
        ∧ (migrationLoop T true ts l).aborted = false := by
  induction l with
  | nil =>
      intro ts
      exact ⟨rfl, rfl, rfl⟩
  | cons p l ih =>
      intro ts
      obtain ⟨i, stmt⟩ := p
      simp only [migrationLoop, List.map_cons, nonEmptyTrimmed_cons]
      by_cases h : strTrim stmt = ""
      · rw [if_pos h, if_pos h]
        exact ih ts
      · rw [if_neg h, if_neg h]
        simp only [if_true]
        rcases hE : T.exec (declareSavepoint ("s" ++ toString i) ts).db
            (strTrim stmt) with ⟨s1, r⟩
        have hdb : (declareSavepoint ("s" ++ toString i) ts).db = ts.db := rfl
        cases r with
        | ok n =>
            obtain ⟨ih1, ih2, ih3⟩ := ih ⟨s1, (declareSavepoint ("s" ++ toString i) ts).savepoints⟩
            rw [hdb] at hE
            simp only [hE, drySpecLoop, declareSavepoint]
            refine ⟨?_, ?_, ?_⟩
            · simpa [declareSavepoint] using ih1
            · simpa [declareSavepoint] using ih2
            · simpa [declareSavepoint] using ih3
        | error e =>
            rw [hdb] at hE
            have hroll : rollbackToSavepoint ("s" ++ toString i)
                ⟨s1, ("s" ++ toString i, ts.db) :: ts.savepoints⟩
                = ⟨ts.db, ("s" ++ toString i, ts.db) :: ts.savepoints⟩ :=
              rollback_declared _ _ _ _
            obtain ⟨ih1, ih2, ih3⟩ := ih ⟨ts.db, ("s" ++ toString i, ts.db) :: ts.savepoints⟩
            simp only [hE, drySpecLoop, declareSavepoint, hroll]
            exact ⟨by simpa using ih1, by simp, ih3⟩

/-- C1: with `dry_run = false` and successful setup, the executor runs
the non-empty trimmed statements sequentially in input order, stops at
the first error with that failure recorded last and `ok = false,
committed = false`, and otherwise attempts COMMIT, appending a synthetic
`COMMIT` failure entry (with `ok = false, committed = false`) when the
commit fails and reporting `ok = true, committed = true` when it
succeeds — that is, it agrees with the claim-side `applySpec`. -/
theorem execute_migration_apply_mode {σ : Type} (T : PgTx σ) (s0 : σ)
    (statements : List String) (ltm stm : Option Nat) (s1 : σ)
    (hsetup : runSetup T s0 (setupSqls (ltm.getD 5000) (stm.getD 30000))
      = .ok s1) :
    execute_migration T s0 statements false ltm stm
      = applySpec T s0 s1 statements (ltm.getD 5000) (stm.getD 30000) := by
  simp only [execute_migration, hsetup]
  rw [migrationLoop_apply T statements.enum (TxState.init s1)]
  simp only [TxState.init, List.enum_map_snd]
  rcases hA : applySpecLoop T s1 (nonEmptyTrimmed statements) with ⟨sf, rs, allOk⟩
  cases allOk with
  | false => simp [applySpec, hA]
  | true =>
      simp only [applySpec, hA]
      cases hC : T.commitCheck sf with
      | none => simp [hC]
      | some e => simp [hC]

/-- C1 witness: the apply-mode equivalence evaluated on a concrete
logging transaction where the third statement fails. -/
theorem execute_migration_apply_mode_witness :
    execute_migration
      (⟨fun s stmt => if stmt = "BAD" then (s, .error ⟨none, "boom", none, none⟩)
          else (s ++ [stmt], .ok 1), fun _ => none⟩ : PgTx (List String))
      [] ["CREATE TABLE a (x int)", "  ", "BAD"] false none none
      = applySpec
        (⟨fun s stmt => if stmt = "BAD" then (s, .error ⟨none, "boom", none, none⟩)
            else (s ++ [stmt], .ok 1), fun _ => none⟩ : PgTx (List String))
        [] (setupSqls 5000 30000) ["CREATE TABLE a (x int)", "  ", "BAD"]
        5000 30000 :=
  execute_migration_apply_mode _ [] ["CREATE TABLE a (x int)", "  ", "BAD"]
    none none (setupSqls 5000 30000) rfl

/-- C2: with `dry_run = true` and successful setup, the result has
exactly one `StatementResult` per non-empty trimmed statement in input
order, the state advances only across successful statements (errors are
rolled back to the statement's savepoint, successes are not released),
the whole transaction is rolled back at the end (the visible state is
unchanged), `committed = false`, and `ok` is the conjunction of the
per-statement flags — that is, it agrees with the claim-side
`drySpec`. -/
theorem execute_migration_dry_mode {σ : Type} (T : PgTx σ) (s0 : σ)
    (statements : List String) (ltm stm : Option Nat) (s1 : σ)
    (hsetup : runSetup T s0 (setupSqls (ltm.getD 5000) (stm.getD 30000))
      = .ok s1) :
    execute_migration T s0 statements true ltm stm
        = drySpec T s0 s1 statements (ltm.getD 5000) (stm.getD 30000)
      ∧ (execute_migration T s0 statements true ltm stm).1.statements.map
          (fun r => r.sql) = nonEmptyTrimmed statements := by
  have h1 : execute_migration T s0 statements true ltm stm
      = drySpec T s0 s1 statements (ltm.getD 5000) (stm.getD 30000) := by
    simp only [execute_migration, hsetup]
    obtain ⟨hres, hok, hab⟩ := migrationLoop_dry T statements.enum (TxState.init s1)
    rw [List.enum_map_snd] at hres hok
    simp only [TxState.init] at hres hok hab
    simp only [TxState.init, hab, hok, hres, drySpec, Bool.false_eq_true,
      if_false, if_true]
  refine ⟨h1, ?_⟩
  rw [h1]
  exact drySpecLoop_sqls T s1 (nonEmptyTrimmed statements)

/-- C2 witness: the dry-run equivalence evaluated on a concrete logging
transaction where the second non-empty statement fails. -/
theorem execute_migration_dry_mode_witness :
    execute_migration
      (⟨fun s stmt => if stmt = "BAD" then (s, .error ⟨none, "boom", none, none⟩)
          else (s ++ [stmt], .ok 1), fun _ => none⟩ : PgTx (List String))
      [] ["ALTER TABLE a RENAME TO b", "", "BAD", "ALTER TABLE b ADD c int"]
      true none none
      = drySpec
        (⟨fun s stmt => if stmt = "BAD" then (s, .error ⟨none, "boom", none, none⟩)
            else (s ++ [stmt], .ok 1), fun _ => none⟩ : PgTx (List String))
        [] (setupSqls 5000 30000)
        ["ALTER TABLE a RENAME TO b", "", "BAD", "ALTER TABLE b ADD c int"]
        5000 30000
    ∧ (execute_migration
        (⟨fun s stmt => if stmt = "BAD" then (s, .error ⟨none, "boom", none, none⟩)
            else (s ++ [stmt], .ok 1), fun _ => none⟩ : PgTx (List String))
        [] ["ALTER TABLE a RENAME TO b", "", "BAD", "ALTER TABLE b ADD c int"]
        true none none).1.statements.map (fun r => r.sql)
      = ["ALTER TABLE a RENAME TO b", "BAD", "ALTER TABLE b ADD c int"] :=
  execute_migration_dry_mode _ [] _ none none (setupSqls 5000 30000) rfl

end Tusker
